import Mathlib

/-!
Verification of the two request handlers of the portfolio repository:
the newsletter subscription-confirmation loader
(`app/routes/newsletter/verification.ts`, shown in full in
`src/app/routes/blog/realistic-button-design-css/post.mdx`) and the
social-preview image loader (`src/app/routes/api/og/index.tsx`).

Both handlers are thin orchestration over external calls, so each is
embedded as a function over an explicit environment of those calls.
JavaScript exceptions are modelled with `Except` (the payload is an
opaque string: the handlers themselves only ever throw string
literals), and every outbound call to the contact store or the
renderer is recorded in a call log so that claims about the number of
calls can be stated.
-/

namespace Portfolio

/-- A thrown JavaScript value. The loaders throw string literals, and any
value thrown by an external library is modelled by its (opaque) string
rendering. -/
abbrev Exn := String

/-! ## Newsletter confirmation loader

Embedding of:

```ts
export async function loader({ request }: Route.LoaderArgs) {
  const { searchParams } = new URL(request.url);
  const token = searchParams.get("token");
  if (!token) {
    throw "No token provided";
  }
  const email = verifySignedToken(token);
  if (!email) {
    throw "Wrong token";
  }
  try {
    // Check if the contact already exists
    const { data } = await resend.contacts.get({
      email,
      audienceId: "1a231b09-a625-43c1-9cc2-5d8f34972bdb",
    });
    if (data) {
      return redirect(
        `${href("/newsletter/confirmation")}?alreadySubscribed=true`,
      );
    }
    const { error } = await resend.contacts.create({
      email,
      audienceId: "1a231b09-a625-43c1-9cc2-5d8f34972bdb",
    });
    if (error) {
      console.error("Error adding contact:", error);
      throw "Error adding contact";
    }
  } catch (error) {
    console.error("Error verifying token:", error);
    throw "Error verifying token";
  }
  return redirect(href("/newsletter/confirmation"));
}
```
-/

/-- The fixed audience id hardcoded at both call sites of the loader. -/
def audienceId : String := "1a231b09-a625-43c1-9cc2-5d8f34972bdb"

/-- `href("/newsletter/confirmation")`: the confirmation path. -/
def confirmationPath : String := "/newsletter/confirmation"

/-- Environment of external calls the confirmation loader depends on.
`verify` embeds `verifySignedToken` (a JS call: it may throw, return
`null`, or return the validated email). `contactsGet` embeds
`resend.contacts.get`, taking the email and audience id and producing
the `data` field of its result (`none` = null, no existing contact) or
throwing. `contactsCreate` embeds `resend.contacts.create`, producing
the `error` field of its result (`none` = success) or throwing. -/
structure ResendEnv where
  verify : String → Except Exn (Option String)
  contactsGet : String → String → Except Exn (Option String)
  contactsCreate : String → String → Except Exn (Option String)

/-- A `redirect(...)` response, identified by its Location target. -/
structure Redirect where
  location : String
deriving DecidableEq, Repr

/-- The outbound contact-store calls made during one run of the loader,
each recorded with the email and audience id passed. -/
structure CallLog where
  getCalls : List (String × String)
  createCalls : List (String × String)
deriving DecidableEq, Repr

/-- The confirmation loader. `tokenParam` is `searchParams.get("token")`
(`none` when the parameter is absent). The result is either a thrown
value (`Except.error`) or a redirect, paired with the log of
contact-store calls made. The `token = ""` test mirrors JS falsiness of
the empty string in `if (!token)`; the `verifySignedToken` call sits
before (outside) the `try` block, exactly as in the source, so a throw
from it propagates unchanged; every failure inside the `try` — the
lookup throwing, the creation throwing, or the creation returning an
`error` (which the source turns into `throw "Error adding contact"`) —
is caught by the single `catch` and rethrown as `"Error verifying
token"`. -/
def loader (env : ResendEnv) (tokenParam : Option String) :
    Except Exn Redirect × CallLog :=
  match tokenParam with
  | none => (Except.error "No token provided", ⟨[], []⟩)
  | some token =>
    if token = "" then (Except.error "No token provided", ⟨[], []⟩)
    else
      match env.verify token with
      | Except.error e => (Except.error e, ⟨[], []⟩)
      | Except.ok none => (Except.error "Wrong token", ⟨[], []⟩)
      | Except.ok (some email) =>
        match env.contactsGet email audienceId with
        | Except.error _ =>
            (Except.error "Error verifying token", ⟨[(email, audienceId)], []⟩)
        | Except.ok (some _) =>
            (Except.ok ⟨confirmationPath ++ "?alreadySubscribed=true"⟩,
             ⟨[(email, audienceId)], []⟩)
        | Except.ok none =>
          match env.contactsCreate email audienceId with
          | Except.error _ =>
              (Except.error "Error verifying token",
               ⟨[(email, audienceId)], [(email, audienceId)]⟩)
          | Except.ok (some _) =>
              (Except.error "Error verifying token",
               ⟨[(email, audienceId)], [(email, audienceId)]⟩)
          | Except.ok none =>
              (Except.ok ⟨confirmationPath⟩,
               ⟨[(email, audienceId)], [(email, audienceId)]⟩)

/-- A concrete environment whose token verification throws; used to
exhibit that such a throw escapes the loader's `try`/`catch` guard. -/
def throwingVerifyEnv : ResendEnv :=
  ⟨fun _ => Except.error "token library blew up",
   fun _ _ => Except.ok none,
   fun _ _ => Except.ok none⟩

/-! ## Social-preview image loader

Embedding of `src/app/routes/api/og/index.tsx`:

```ts
export async function loader({ request }: Route.LoaderArgs) {
  try {
    const { searchParams, origin } = new URL(request.url);
    const title = searchParams.get("title")?.trim().slice(0, 70);
    const description = searchParams.get("description")?.trim().slice(0, 200);
    if (!title || !description) {
      return new Response("Missing title or description", {
        status: 400,
        headers: { "Content-Type": "text/plain" },
      });
    }
    return new ImageResponse((<div ...>{origin}{title}{description}</div>),
      { fonts: [...] });
  } catch (error) {
    console.error("OG Image generation error:", error);
    return new Response("Internal server error", {
      status: 500,
      headers: { "Content-Type": "text/plain" },
    });
  }
}
```

Strings are modelled at Unicode-scalar granularity (`List Char`), so
`slice(0, n)` is `List.take n` and `trim()` drops the JS whitespace
characters from both ends.
-/

/-- The characters stripped by JS `String.prototype.trim`: the ECMAScript
WhiteSpace characters (tab, LF, VT, FF, CR, space, NBSP, the Unicode
space separators, BOM) and the line terminators LS and PS. -/
def isJsWhitespace (c : Char) : Bool :=
  c.toNat = 0x9 || c.toNat = 0xA || c.toNat = 0xB || c.toNat = 0xC ||
  c.toNat = 0xD || c.toNat = 0x20 || c.toNat = 0xA0 || c.toNat = 0x1680 ||
  (0x2000 ≤ c.toNat && c.toNat ≤ 0x200A) ||
  c.toNat = 0x2028 || c.toNat = 0x2029 || c.toNat = 0x202F ||
  c.toNat = 0x205F || c.toNat = 0x3000 || c.toNat = 0xFEFF

/-- JS `s.trim()`: strip JS whitespace from both ends. -/
def jsTrim (s : String) : String :=
  String.mk ((s.data.dropWhile isJsWhitespace).rdropWhile isJsWhitespace)

/-- JS `s.slice(0, n)` at scalar-value granularity: the first `n`
characters of `s`. -/
def jsSlice (s : String) (n : Nat) : String :=
  String.mk (s.data.take n)

/-- Environment of the image loader: the `ImageResponse` renderer, which
receives the origin, title and description placed in the markup and
either produces the image bytes or throws. -/
structure OgEnv where
  render : String → String → String → Except Exn (List Nat)

/-- A response of the image loader: either a plain-text response with a
status code and a Content-Type header, or a rendered image. -/
inductive OgResponse where
  | plain (status : Nat) (contentType : String) (body : String)
  | image (bytes : List Nat)
deriving DecidableEq, Repr

/-- The loader's result together with a record of the rendering call it
made, if any: the origin, title and description passed to
`ImageResponse` (`none` when rendering was never attempted). -/
structure OgOutcome where
  response : OgResponse
  renderCall : Option (String × String × String)
deriving DecidableEq, Repr

/-- The OG image loader. `titleParam`/`descriptionParam` are
`searchParams.get(...)` (`none` when the parameter is absent). Each is
optionally trimmed then sliced (`?.trim().slice(0, n)`); the
`t = "" ∨ d = ""` test together with the `none` fallthrough mirrors JS
falsiness in `if (!title || !description)` (undefined or empty string).
A rendering throw is caught and turned into the generic 500 response;
the loader itself is total and never propagates an exception. -/
def ogLoader (env : OgEnv) (origin : String)
    (titleParam descriptionParam : Option String) : OgOutcome :=
  let title := titleParam.map fun s => jsSlice (jsTrim s) 70
  let description := descriptionParam.map fun s => jsSlice (jsTrim s) 200
  match title, description with
  | some t, some d =>
    if t = "" ∨ d = "" then
      ⟨OgResponse.plain 400 "text/plain" "Missing title or description", none⟩
    else
      match env.render origin t d with
      | Except.ok bytes =>
          ⟨OgResponse.image bytes, some (origin, t, d)⟩
      | Except.error _ =>
          ⟨OgResponse.plain 500 "text/plain" "Internal server error",
           some (origin, t, d)⟩
  | _, _ => ⟨OgResponse.plain 400 "text/plain" "Missing title or description", none⟩

/-- A renderer that always succeeds. -/
def okRenderEnv : OgEnv := ⟨fun _ _ _ => Except.ok []⟩

/-- A renderer that always throws (e.g. malformed font data). -/
def throwingRenderEnv : OgEnv := ⟨fun _ _ _ => Except.error "malformed font data"⟩

/-- The title used to refute C7: 70 spaces followed by a single letter —
71 characters, of which trimming keeps only one. -/
def c7Title : String := String.mk (List.replicate 70 ' ' ++ ['a'])

/-- A 201-character description, longer than the 200-character limit. -/
def c7Description : String := String.mk (List.replicate 201 'b')

/-- The title used to refute C10's no-trailing-whitespace clause:
`'a'`, 69 spaces, `'b'` — trimming keeps it whole (both ends are
letters), and slicing to 70 cuts just after the interior spaces. -/
def c10Title : String := String.mk ('a' :: (List.replicate 69 ' ' ++ ['b']))

end Portfolio

namespace Portfolio

/-- C1: a request whose token verifies to an email with no existing
contact in the fixed audience makes exactly one contact-creation call,
with that email and the fixed audience id, and redirects to the
confirmation path, which carries no `alreadySubscribed` flag. -/
theorem C1_new_email_creates_once (env : ResendEnv) (token email : String)
    (htok : token ≠ "")
    (hv : env.verify token = Except.ok (some email))
    (hg : env.contactsGet email audienceId = Except.ok none)
    (hc : env.contactsCreate email audienceId = Except.ok none) :
    loader env (some token) =
      (Except.ok ⟨confirmationPath⟩,
       ⟨[(email, audienceId)], [(email, audienceId)]⟩) ∧
    ¬ ("alreadySubscribed".data <:+: confirmationPath.data) := by
  refine ⟨?_, by decide⟩
  simp [loader, htok, hv, hg, hc]

theorem C1_new_email_creates_once_witness :
    ("tok" : String) ≠ "" ∧
    loader ⟨fun _ => Except.ok (some "a@b.c"),
            fun _ _ => Except.ok none,
            fun _ _ => Except.ok none⟩ (some "tok") =
      (Except.ok ⟨confirmationPath⟩,
       ⟨[("a@b.c", audienceId)], [("a@b.c", audienceId)]⟩) ∧
    ¬ ("alreadySubscribed".data <:+: confirmationPath.data) :=
  ⟨by decide,
   (C1_new_email_creates_once
      ⟨fun _ => Except.ok (some "a@b.c"),
       fun _ _ => Except.ok none,
       fun _ _ => Except.ok none⟩
      "tok" "a@b.c" (by decide) rfl rfl rfl).1,
   (C1_new_email_creates_once
      ⟨fun _ => Except.ok (some "a@b.c"),
       fun _ _ => Except.ok none,
       fun _ _ => Except.ok none⟩
      "tok" "a@b.c" (by decide) rfl rfl rfl).2⟩

/-- C2: a request whose token verifies to an email that already has a
contact in the fixed audience makes zero contact-creation calls and
redirects to the confirmation path suffixed with
`?alreadySubscribed=true`; in particular a second verification for an
already-subscribed email never duplicates the contact. -/
theorem C2_already_subscribed_no_create (env : ResendEnv)
    (token email contact : String)
    (htok : token ≠ "")
    (hv : env.verify token = Except.ok (some email))
    (hg : env.contactsGet email audienceId = Except.ok (some contact)) :
    loader env (some token) =
      (Except.ok ⟨confirmationPath ++ "?alreadySubscribed=true"⟩,
       ⟨[(email, audienceId)], []⟩) := by
  simp [loader, htok, hv, hg]

theorem C2_already_subscribed_no_create_witness :
    ("tok" : String) ≠ "" ∧
    loader ⟨fun _ => Except.ok (some "a@b.c"),
            fun _ _ => Except.ok (some "contact"),
            fun _ _ => Except.ok none⟩ (some "tok") =
      (Except.ok ⟨confirmationPath ++ "?alreadySubscribed=true"⟩,
       ⟨[("a@b.c", audienceId)], []⟩) :=
  ⟨by decide,
   C2_already_subscribed_no_create
     ⟨fun _ => Except.ok (some "a@b.c"),
      fun _ _ => Except.ok (some "contact"),
      fun _ _ => Except.ok none⟩
     "tok" "a@b.c" "contact" (by decide) rfl rfl⟩

/-- C3 counterexample: the claim says a throw from token verification is
caught by the single enclosing guard and surfaced as the generic
"Error verifying token" failure. In the source the `verifySignedToken`
call sits before the `try` block, so its throw propagates unchanged:
in a concrete environment whose verification throws
"token library blew up", the loader fails with exactly that value,
which is not "Error verifying token". -/
theorem C3_counterexample :
    loader throwingVerifyEnv (some "t") =
      (Except.error "token library blew up", ⟨[], []⟩) ∧
    ("token library blew up" : String) ≠ "Error verifying token" := by
  constructor
  · simp [loader, throwingVerifyEnv]
  · decide

/-- C3 (amended): only the two failure paths inside the `try` block —
the contact lookup throwing, and the contact creation failing (either
throwing or returning an `error`) — are caught by the single enclosing
guard and surfaced identically as the generic "Error verifying token"
failure, indistinguishable to the caller; the token-verification call
sits outside the guard, so a throw from it propagates to the caller
unchanged. -/
theorem C3_guard_scope (env : ResendEnv) (token : String)
    (htok : token ≠ "") :
    (∀ e, env.verify token = Except.error e →
       (loader env (some token)).1 = Except.error e) ∧
    (∀ email, env.verify token = Except.ok (some email) →
      ((∀ e, env.contactsGet email audienceId = Except.error e →
          (loader env (some token)).1 = Except.error "Error verifying token") ∧
       (env.contactsGet email audienceId = Except.ok none →
        ∀ r, (env.contactsCreate email audienceId = Except.error r ∨
              env.contactsCreate email audienceId = Except.ok (some r)) →
          (loader env (some token)).1 = Except.error "Error verifying token"))) := by
  refine ⟨fun e he => by simp [loader, htok, he], fun email hv => ⟨?_, ?_⟩⟩
  · intro e hg
    simp [loader, htok, hv, hg]
  · intro hg r hc
    rcases hc with hc | hc <;> simp [loader, htok, hv, hg, hc]

theorem C3_guard_scope_witness :
    ("t" : String) ≠ "" ∧
    (loader throwingVerifyEnv (some "t")).1 =
      Except.error "token library blew up" :=
  ⟨by decide,
   (C3_guard_scope throwingVerifyEnv "t" (by decide)).1
     "token library blew up" rfl⟩

/-- C4: a request carrying a token on which verification returns a
negative result (null) fails with "Wrong token": the loader throws
rather than redirecting, and makes no contact-store call. -/
theorem C4_wrong_token (env : ResendEnv) (token : String)
    (htok : token ≠ "")
    (hv : env.verify token = Except.ok none) :
    loader env (some token) = (Except.error "Wrong token", ⟨[], []⟩) := by
  simp [loader, htok, hv]

theorem C4_wrong_token_witness :
    ("bad" : String) ≠ "" ∧
    loader ⟨fun _ => Except.ok none,
            fun _ _ => Except.ok none,
            fun _ _ => Except.ok none⟩ (some "bad") =
      (Except.error "Wrong token", ⟨[], []⟩) :=
  ⟨by decide,
   C4_wrong_token
     ⟨fun _ => Except.ok none,
      fun _ _ => Except.ok none,
      fun _ _ => Except.ok none⟩
     "bad" (by decide) rfl⟩

/-- C5: a request whose URL carries no token parameter fails with
"No token provided" and makes no contact-store call; the result is the
same for every environment, so neither token verification nor any
contact-store call can have been consulted. -/
theorem C5_no_token (env : ResendEnv) :
    loader env none = (Except.error "No token provided", ⟨[], []⟩) := rfl

/-- C6: when the contact-creation call reports an error for a verified,
previously-unseen email, the loader surfaces an error condition (the
guard's generic "Error verifying token") instead of returning a
redirect. -/
theorem C6_create_error_fatal (env : ResendEnv)
    (token email err : String)
    (htok : token ≠ "")
    (hv : env.verify token = Except.ok (some email))
    (hg : env.contactsGet email audienceId = Except.ok none)
    (hc : env.contactsCreate email audienceId = Except.ok (some err)) :
    loader env (some token) =
      (Except.error "Error verifying token",
       ⟨[(email, audienceId)], [(email, audienceId)]⟩) := by
  simp [loader, htok, hv, hg, hc]

theorem jsSlice_length (s : String) (n : Nat) :
    (jsSlice s n).length = min n s.length := by
  show (s.data.take n).length = min n s.data.length
  simp

theorem jsSlice_empty (n : Nat) : jsSlice "" n = "" := by
  show String.mk (List.take n []) = ""
  rw [List.take_nil]

theorem string_eq_of_data_eq (s t : String) (h : s.data = t.data) : s = t := by
  cases s; cases t; exact congrArg String.mk h

theorem jsSlice_ne_empty (s : String) (n : Nat) (hn : 0 < n) (hs : s ≠ "") :
    jsSlice s n ≠ "" := by
  intro h
  have h2 : s.data.take n = [] := congrArg String.data h
  rw [List.take_eq_nil_iff] at h2
  rcases h2 with h2 | h2
  · omega
  · exact hs (string_eq_of_data_eq s "" h2)

theorem head?_take_pos {α : Type} (n : Nat) (l : List α) (hn : 0 < n) :
    (l.take n).head? = l.head? := by
  cases n with
  | zero => omega
  | succ m => cases l <;> simp

/-- The first character of a trimmed string is never JS whitespace:
trimming from the right only removes a suffix, so the head is the head
of the left-trimmed list, which `dropWhile` guarantees fails the
predicate. -/
theorem jsTrim_head_not_ws (s : String) (c : Char)
    (h : (jsTrim s).data.head? = some c) : isJsWhitespace c = false := by
  obtain ⟨u, hu⟩ :=
    List.rdropWhile_prefix isJsWhitespace (s.data.dropWhile isJsWhitespace)
  have hd : (jsTrim s).data =
      (s.data.dropWhile isJsWhitespace).rdropWhile isJsWhitespace := rfl
  rw [hd] at h
  have hh : (s.data.dropWhile isJsWhitespace).head? = some c := by
    rw [← hu]
    cases hx : (s.data.dropWhile isJsWhitespace).rdropWhile isJsWhitespace with
    | nil => rw [hx] at h; simp at h
    | cons a tl =>
        rw [hx] at h
        simp only [List.head?_cons, Option.some.injEq] at h
        simp [h]
  have hw := List.head?_dropWhile_not isJsWhitespace s.data
  rw [hh] at hw
  exact hw

/-- When neither trimmed-and-sliced parameter is empty, the loader calls
the renderer with the origin and the trimmed, sliced title and
description, whatever the renderer then does. -/
theorem ogLoader_renderCall (env : OgEnv) (origin t d : String)
    (hcond : ¬(jsSlice (jsTrim t) 70 = "" ∨ jsSlice (jsTrim d) 200 = "")) :
    (ogLoader env origin (some t) (some d)).renderCall =
      some (origin, jsSlice (jsTrim t) 70, jsSlice (jsTrim d) 200) := by
  cases hr : env.render origin (jsSlice (jsTrim t) 70) (jsSlice (jsTrim d) 200) <;>
    simp [ogLoader, hcond, hr]

theorem C6_create_error_fatal_witness :
    ("tok" : String) ≠ "" ∧
    loader ⟨fun _ => Except.ok (some "a@b.c"),
            fun _ _ => Except.ok none,
            fun _ _ => Except.ok (some "rate limited")⟩ (some "tok") =
      (Except.error "Error verifying token",
       ⟨[("a@b.c", audienceId)], [("a@b.c", audienceId)]⟩) :=
  ⟨by decide,
   C6_create_error_fatal
     ⟨fun _ => Except.ok (some "a@b.c"),
      fun _ _ => Except.ok none,
      fun _ _ => Except.ok (some "rate limited")⟩
     "tok" "a@b.c" "rate limited" (by decide) rfl rfl rfl⟩

/-- C7 counterexample: the claim measures the length bound on the raw
parameter, but the code trims before truncating. A 71-character title
consisting of 70 spaces and one letter is longer than 70 characters,
yet the title rendered into the image is the single letter left after
trimming — 1 character, not 70. -/
theorem C7_counterexample :
    c7Title.length = 71 ∧
    ((ogLoader okRenderEnv "https://nikolailehbr.ink" (some c7Title)
        (some c7Description)).renderCall.map fun c => c.2.1.length) = some 1 ∧
    (some 1 : Option Nat) ≠ some 70 := by
  refine ⟨by decide, by decide, by decide⟩

/-- C7 (amended): the truncation bound applies to the trimmed parameter:
whenever the whitespace-trimmed title is longer than 70 characters, the
title rendered into the image is exactly its first 70 characters, and
whenever the trimmed description is longer than 200 characters, the
rendered description is exactly its first 200 characters. -/
theorem C7_trimmed_truncation (env : OgEnv) (origin t d : String)
    (ht : 70 < (jsTrim t).length) (hd : 200 < (jsTrim d).length) :
    (ogLoader env origin (some t) (some d)).renderCall =
      some (origin, jsSlice (jsTrim t) 70, jsSlice (jsTrim d) 200) ∧
    (jsSlice (jsTrim t) 70).length = 70 ∧
    (jsSlice (jsTrim d) 200).length = 200 := by
  have hlt : (jsSlice (jsTrim t) 70).length = 70 := by
    rw [jsSlice_length]; omega
  have hld : (jsSlice (jsTrim d) 200).length = 200 := by
    rw [jsSlice_length]; omega
  have hnt : jsSlice (jsTrim t) 70 ≠ "" := by
    intro h; rw [h] at hlt; exact absurd hlt (by decide)
  have hnd : jsSlice (jsTrim d) 200 ≠ "" := by
    intro h; rw [h] at hld; exact absurd hld (by decide)
  refine ⟨ogLoader_renderCall env origin t d ?_, hlt, hld⟩
  rintro (h | h)
  · exact hnt h
  · exact hnd h

set_option maxRecDepth 8000 in
theorem C7_trimmed_truncation_witness :
    70 < (jsTrim (String.mk (List.replicate 71 'a'))).length ∧
    200 < (jsTrim (String.mk (List.replicate 201 'b'))).length ∧
    ((ogLoader okRenderEnv "o" (some (String.mk (List.replicate 71 'a')))
        (some (String.mk (List.replicate 201 'b')))).renderCall =
      some ("o", jsSlice (jsTrim (String.mk (List.replicate 71 'a'))) 70,
            jsSlice (jsTrim (String.mk (List.replicate 201 'b'))) 200) ∧
     (jsSlice (jsTrim (String.mk (List.replicate 71 'a'))) 70).length = 70 ∧
     (jsSlice (jsTrim (String.mk (List.replicate 201 'b'))) 200).length = 200) :=
  ⟨by decide, by decide,
   C7_trimmed_truncation okRenderEnv "o" _ _ (by decide) (by decide)⟩

/-- C8: an image request missing the title parameter or missing the
description parameter gets the 400 plain-text response, and rendering
is never attempted. -/
theorem C8_missing_param_400 (env : OgEnv) (origin : String)
    (titleParam descriptionParam : Option String)
    (h : titleParam = none ∨ descriptionParam = none) :
    ogLoader env origin titleParam descriptionParam =
      ⟨OgResponse.plain 400 "text/plain" "Missing title or description", none⟩ := by
  rcases h with h | h <;> subst h
  · cases descriptionParam <;> simp [ogLoader]
  · cases titleParam <;> simp [ogLoader]

theorem C8_missing_param_400_witness :
    ((none : Option String) = none ∨ (some "d" : Option String) = none) ∧
    ogLoader okRenderEnv "o" none (some "d") =
      ⟨OgResponse.plain 400 "text/plain" "Missing title or description", none⟩ :=
  ⟨Or.inl rfl, C8_missing_param_400 okRenderEnv "o" none (some "d") (Or.inl rfl)⟩

/-- C9: whatever exception the renderer throws, the loader answers with
the 500 plain-text response whose body is the fixed string
"Internal server error" — the body does not depend on the thrown value,
so no detail of the exception appears in it, and since `ogLoader` is a
total function into `OgOutcome` the exception never propagates out of
the loader. -/
theorem C9_render_error_500 (env : OgEnv) (origin t d e : String)
    (hts : jsTrim t ≠ "") (hds : jsTrim d ≠ "")
    (hr : env.render origin (jsSlice (jsTrim t) 70) (jsSlice (jsTrim d) 200) =
      Except.error e) :
    (ogLoader env origin (some t) (some d)).response =
      OgResponse.plain 500 "text/plain" "Internal server error" := by
  have hnt : jsSlice (jsTrim t) 70 ≠ "" := jsSlice_ne_empty _ _ (by omega) hts
  have hnd : jsSlice (jsTrim d) 200 ≠ "" := jsSlice_ne_empty _ _ (by omega) hds
  have hcond : ¬(jsSlice (jsTrim t) 70 = "" ∨ jsSlice (jsTrim d) 200 = "") := by
    rintro (h | h)
    · exact hnt h
    · exact hnd h
  simp [ogLoader, hcond, hr]

theorem C9_render_error_500_witness :
    jsTrim "Title" ≠ "" ∧ jsTrim "Desc" ≠ "" ∧
    (ogLoader throwingRenderEnv "o" (some "Title") (some "Desc")).response =
      OgResponse.plain 500 "text/plain" "Internal server error" :=
  ⟨by decide, by decide,
   C9_render_error_500 throwingRenderEnv "o" "Title" "Desc"
     "malformed font data" (by decide) (by decide) rfl⟩

/-- C10 counterexample: trailing whitespace can appear in the rendered
title. The title `'a'`, 69 spaces, `'b'` survives trimming unchanged,
and slicing to 70 characters cuts off the final `'b'`, so the title
passed to the renderer ends in a space — refuting the claim's clause
that leading/trailing whitespace never appears in the rendered title. -/
theorem C10_counterexample :
    ((ogLoader okRenderEnv "o" (some c10Title) (some "d")).renderCall.map
        fun c => c.2.1.data.getLast?) = some (some ' ') ∧
    isJsWhitespace ' ' = true := by
  refine ⟨by decide, by decide⟩

/-- C10 (amended): the title and description are whitespace-trimmed
before the presence check and before truncation — a parameter that is
present but empty or all-whitespace trims to the empty string and
yields the 400 response with no rendering attempted, and whenever
rendering is attempted the rendered values are exactly the trimmed
inputs truncated to 70 and 200 characters, so they never begin with
whitespace; trailing whitespace, however, can reappear when truncation
cuts just after an interior space. -/
theorem C10_trim_before_check (env : OgEnv) (origin t d : String) :
    (jsTrim t = "" →
      ogLoader env origin (some t) (some d) =
        ⟨OgResponse.plain 400 "text/plain" "Missing title or description", none⟩) ∧
    (jsTrim d = "" →
      ogLoader env origin (some t) (some d) =
        ⟨OgResponse.plain 400 "text/plain" "Missing title or description", none⟩) ∧
    (∀ c, (ogLoader env origin (some t) (some d)).renderCall = some c →
      c.2.1 = jsSlice (jsTrim t) 70 ∧ c.2.2 = jsSlice (jsTrim d) 200 ∧
      (∀ ch, c.2.1.data.head? = some ch → isJsWhitespace ch = false) ∧
      (∀ ch, c.2.2.data.head? = some ch → isJsWhitespace ch = false)) := by
  refine ⟨?_, ?_, ?_⟩
  · intro h
    simp [ogLoader, h, jsSlice_empty]
  · intro h
    simp [ogLoader, h, jsSlice_empty]
  · intro c hc
    by_cases hcond : jsSlice (jsTrim t) 70 = "" ∨ jsSlice (jsTrim d) 200 = ""
    · rcases hcond with h | h <;> simp [ogLoader, h] at hc
    · rw [ogLoader_renderCall env origin t d hcond] at hc
      rw [Option.some.injEq] at hc
      subst hc
      refine ⟨rfl, rfl, ?_, ?_⟩
      · intro ch hch
        refine jsTrim_head_not_ws t ch ?_
        rw [← head?_take_pos 70 (jsTrim t).data (by omega)]
        exact hch
      · intro ch hch
        refine jsTrim_head_not_ws d ch ?_
        rw [← head?_take_pos 200 (jsTrim d).data (by omega)]
        exact hch

theorem C10_trim_before_check_witness :
    jsTrim "   " = "" ∧
    ogLoader okRenderEnv "o" (some "   ") (some "d") =
      ⟨OgResponse.plain 400 "text/plain" "Missing title or description", none⟩ :=
  ⟨by decide, (C10_trim_before_check okRenderEnv "o" "   " "d").1 (by decide)⟩

end Portfolio
